import Mathlib

/-!
Verification development for the trace post-processing guard of
`ddtrace/tracer/post_processor.go`: the `readWriteSpan` view over a span
record, its `Tag` / `SetTag` / accessor operations, and the
`runProcessor` / `newReadWriteSpanSlice` dispatch of a finished batch to
the registered post-processing callback.

Go maps are embedded as association lists with last-write-wins update;
machine floats stored in the numeric metadata map are embedded as
rationals (the program only writes and compares small literal values);
the Go `interface{}` tag values are embedded as a closed sum. Locking is
dropped: all claims here are sequential, and every accessor/mutator is a
single critical section in the source.
-/

/-- Association-list lookup, the embedding of a Go map read `m[k]` with
its `ok` flag: `some v` when the key is present, `none` otherwise. -/
def lookupA {α : Type} : List (String × α) → String → Option α
  | [], _ => none
  | (k', v) :: rest, k => if k' = k then some v else lookupA rest k

/-- Association-list removal of every binding of a key, the embedding of
a Go map `delete(m, k)`. -/
def eraseA {α : Type} : List (String × α) → String → List (String × α)
  | [], _ => []
  | (k', v) :: rest, k =>
      if k' = k then eraseA rest k else (k', v) :: eraseA rest k

/-- Association-list update, the embedding of a Go map write `m[k] = v`:
the new binding replaces any previous binding of the key. -/
def insertA {α : Type} (m : List (String × α)) (k : String) (v : α) :
    List (String × α) :=
  (k, v) :: eraseA m k

namespace ext

/-- Modelled from the spec: the operation-name key constant of package
`ext` (its source file is not among the provided sources). -/
def SpanName : String := "span.name"

/-- Modelled from the spec: the span-type key constant of package `ext`. -/
def SpanType : String := "span.type"

/-- Modelled from the spec: the service-name key constant of package `ext`. -/
def ServiceName : String := "service.name"

/-- Modelled from the spec: the resource-name key constant of package `ext`. -/
def ResourceName : String := "resource.name"

/-- Modelled from the spec: the HTTP status-code key constant of package `ext`. -/
def HTTPCode : String := "http.status_code"

/-- Modelled from the spec: the environment-tag key constant of package `ext`. -/
def Environment : String := "env"

/-- Modelled from the spec: the analytics-event flag key constant of package `ext`. -/
def AnalyticsEvent : String := "analytics.event"

/-- Modelled from the spec: the analytics sample-rate key constant of package `ext`. -/
def EventSampleRate : String := "_dd1.sr.eausr"

/-- Modelled from the spec: the manual-keep key constant of package `ext`. -/
def ManualKeep : String := "manual.keep"

/-- Modelled from the spec: the manual-drop key constant of package `ext`. -/
def ManualDrop : String := "manual.drop"

/-- Modelled from the spec: the public sampling-priority key constant of package `ext`. -/
def SamplingPriority : String := "sampling.priority"

/-- Modelled from the spec: the error-message key constant of package `ext`. -/
def ErrorMsg : String := "error.msg"

/-- Modelled from the spec: the error-type key constant of package `ext`. -/
def ErrorType : String := "error.type"

/-- Modelled from the spec: the error-stack key constant of package `ext`. -/
def ErrorStack : String := "error.stack"

/-- Modelled from the spec: the error-details key constant of package `ext`. -/
def ErrorDetails : String := "error.details"

end ext

/-- Modelled from the spec: the tracer package's internal
sampling-priority metadata key (declared outside the provided sources). -/
def keySamplingPriority : String := "_sampling_priority_v1"

/-- Modelled from the spec: the tracer package's internal "measured"
marker key (declared outside the provided sources). -/
def keyMeasured : String := "_dd.measured"

/-- Modelled from the spec: the tracer package's internal "top level"
marker key (declared outside the provided sources). -/
def keyTopLevel : String := "_dd.top_level"

/-- The span record (type `span` of package tracer, declared outside the
provided sources): the fields that the code under verification reads and
writes. `Meta` is the string-keyed string metadata map and `Metrics` the
string-keyed numeric metadata map; `finished` is the finalization flag of
the record. The Go field `Type` is spelled `Typ` because `Type` is not a
valid field name in Lean. -/
structure Span where
  Name : String
  Service : String
  Resource : String
  Typ : String
  Duration : Int
  Error : Int
  Meta : List (String × String)
  Metrics : List (String × Rat)
  finished : Bool
deriving DecidableEq

/-- A tag value as returned by `Tag` (Go `interface{}`): a string, a
number, a boolean, or the absent indicator (Go `nil`). -/
inductive TagValue where
  | str : String → TagValue
  | num : Rat → TagValue
  | boolean : Bool → TagValue
  | nil : TagValue
deriving DecidableEq

/-- A candidate value passed to `SetTag`: per the spec the record's
tag-setting routine stores a textual value in the string map and a
numeric value in the numeric map, so candidate values are embedded as
this closed sum. -/
inductive SetValue where
  | str : String → SetValue
  | num : Rat → SetValue
deriving DecidableEq

/-- The `TagValue` a stored `SetValue` reads back as. -/
def SetValue.toTagValue : SetValue → TagValue
  | SetValue.str s => TagValue.str s
  | SetValue.num q => TagValue.num q

/-- Modelled from the spec: the span record's own tag-setting routine
(method `span.setTagLocked` of package tracer, whose source file is not
among the provided sources). Per the spec it "must itself decide storage
map by value type": a textual value is written into the string metadata
map and a numeric value into the numeric metadata map. Writing a key
supersedes any previous entry under that key in either map, as required
by the spec's round-trip property (set then get returns the value just
set). -/
def Span.setTagLocked (s : Span) (key : String) (value : SetValue) : Span :=
  match value with
  | SetValue.str v =>
      { s with Meta := insertA s.Meta key v, Metrics := eraseA s.Metrics key }
  | SetValue.num v =>
      { s with Metrics := insertA s.Metrics key v, Meta := eraseA s.Meta key }

/-- `readWriteSpan` wraps a span record and implements the
`ddtrace.ReadWriteSpan` interface. -/
structure readWriteSpan where
  span : Span
deriving DecidableEq

/-- `Tag` returns the tag value held by the given key
(`readWriteSpan.Tag`, post_processor.go lines 22-62). The key switch of
the source becomes the chain of equality tests; a Go map read without an
`ok` flag defaults to the zero value, hence `.getD 0`. -/
def readWriteSpan.Tag (s : readWriteSpan) (key : String) : TagValue :=
  if key = ext.SpanName then TagValue.str s.span.Name
  else if key = ext.ServiceName then TagValue.str s.span.Service
  else if key = ext.ResourceName then TagValue.str s.span.Resource
  else if key = ext.SpanType then TagValue.str s.span.Typ
  else if key = ext.AnalyticsEvent then
    TagValue.boolean (decide ((lookupA s.span.Metrics ext.EventSampleRate).getD 0 = 1))
  else if key = ext.ManualDrop then
    TagValue.boolean (decide ((lookupA s.span.Metrics keySamplingPriority).getD 0 = -1))
  else if key = ext.ManualKeep then
    TagValue.boolean (decide ((lookupA s.span.Metrics keySamplingPriority).getD 0 = 2))
  else if key = ext.SamplingPriority then
    match lookupA s.span.Metrics keySamplingPriority with
    | some val => TagValue.num val
    | none => TagValue.nil
  else if key = keySamplingPriority then
    match lookupA s.span.Metrics keySamplingPriority with
    | some val => TagValue.num val
    | none => TagValue.nil
  else
    match lookupA s.span.Meta key with
    | some val => TagValue.str val
    | none =>
      match lookupA s.span.Metrics key with
      | some val => TagValue.num val
      | none => TagValue.nil

/-- `GetName` returns the operation name of s. -/
def readWriteSpan.GetName (s : readWriteSpan) : String := s.span.Name

/-- `GetService` returns the service name of s. -/
def readWriteSpan.GetService (s : readWriteSpan) : String := s.span.Service

/-- `GetResource` returns the resource name of s. -/
def readWriteSpan.GetResource (s : readWriteSpan) : String := s.span.Resource

/-- `GetType` returns the type of s. -/
def readWriteSpan.GetType (s : readWriteSpan) : String := s.span.Typ

/-- `GetDuration` returns the duration of s. -/
def readWriteSpan.GetDuration (s : readWriteSpan) : Int := s.span.Duration

/-- `IsError` reports whether s is an error. -/
def readWriteSpan.IsError (s : readWriteSpan) : Bool := decide (s.span.Error = 1)

/-- `ErrorMessage` returns the error message of s (Go map read defaults
to the empty string). -/
def readWriteSpan.ErrorMessage (s : readWriteSpan) : String :=
  (lookupA s.span.Meta ext.ErrorMsg).getD ""

/-- `ErrorType` returns the error type of s. -/
def readWriteSpan.ErrorType (s : readWriteSpan) : String :=
  (lookupA s.span.Meta ext.ErrorType).getD ""

/-- `ErrorStack` returns the error stack of s. -/
def readWriteSpan.ErrorStack (s : readWriteSpan) : String :=
  (lookupA s.span.Meta ext.ErrorStack).getD ""

/-- `ErrorDetails` returns the error details of s. -/
def readWriteSpan.ErrorDetails (s : readWriteSpan) : String :=
  (lookupA s.span.Meta ext.ErrorDetails).getD ""

/-- The keys of the first case of `SetTag`'s switch (post_processor.go
line 157): the protected metric-aggregator fields. -/
def protectedKeys : List String :=
  [ext.SpanName, ext.SpanType, ext.ResourceName, ext.ServiceName,
   ext.HTTPCode, ext.Environment, keyMeasured, keyTopLevel,
   ext.AnalyticsEvent, ext.EventSampleRate]

/-- The keys of the second case of `SetTag`'s switch (post_processor.go
line 163): the sampling-priority-related keys. -/
def samplingKeys : List String :=
  [ext.ManualKeep, ext.ManualDrop, ext.SamplingPriority, keySamplingPriority]

/-- `SetTag` adds a set of key/value metadata to the span
(`readWriteSpan.SetTag`, post_processor.go lines 152-169). Protected
keys are rejected (logged and discarded); sampling-priority keys are
rejected as well — that case of the source logs and returns without
calling any mutation routine. All other keys delegate to the record's
`setTagLocked`. -/
def readWriteSpan.SetTag (s : readWriteSpan) (key : String) (value : SetValue) :
    readWriteSpan :=
  if key ∈ protectedKeys then s
  else if key ∈ samplingKeys then s
  else ⟨s.span.setTagLocked key value⟩

/-- `SetOperationName` is a no-op (post_processor.go lines 145-147): it
delegates to `SetTag` on the operation-name key. -/
def readWriteSpan.SetOperationName (s : readWriteSpan) (operationName : String) :
    readWriteSpan :=
  s.SetTag ext.SpanName (SetValue.str operationName)

/-- `newReadWriteSpanSlice` copies the elements of slice spans to the
destination slice of views to be fed to the processor
(post_processor.go lines 182-188). -/
def newReadWriteSpanSlice (spans : List Span) : List readWriteSpan :=
  spans.map fun span => readWriteSpan.mk span

/-- The tracer configuration slot holding the optional post-processing
callback. The Go callback receives the views by pointer and may mutate
the underlying records through them; this effect is embedded by explicit
state passing: the callback returns its boolean decision together with
the final states of the views it was given. -/
structure config where
  postProcessor : Option (List readWriteSpan → Bool × List readWriteSpan)

/-- The tracer, restricted to the configuration that `runProcessor`
reads. -/
structure tracer where
  config : config

/-- `runProcessor` pushes finished spans from a trace to the processor
and reports whether the trace should be kept (post_processor.go lines
173-178). With no registered callback it returns `true` and the records
untouched; otherwise it returns the callback's decision and the records
as the callback left them. -/
def tracer.runProcessor (tr : tracer) (spans : List Span) : Bool × List Span :=
  match tr.config.postProcessor with
  | none => (true, spans)
  | some processor =>
      let result := processor (newReadWriteSpanSlice spans)
      (result.1, result.2.map readWriteSpan.span)

/-- The keys handled by the key switch of `Tag` (post_processor.go lines
26-54), in source order: every key whose `Tag` result is derived from a
record field rather than looked up in the metadata maps. -/
def derivedTagKeys : List String :=
  [ext.SpanName, ext.ServiceName, ext.ResourceName, ext.SpanType,
   ext.AnalyticsEvent, ext.ManualDrop, ext.ManualKeep,
   ext.SamplingPriority, keySamplingPriority]

/-! ### Helper lemmas -/

theorem lookupA_insertA_self {α : Type} (m : List (String × α)) (k : String) (v : α) :
    lookupA (insertA m k v) k = some v := by
  simp [insertA, lookupA]

theorem lookupA_eraseA_self {α : Type} (m : List (String × α)) (k : String) :
    lookupA (eraseA m k) k = none := by
  induction m with
  | nil => simp [eraseA, lookupA]
  | cons hd tl ih =>
      obtain ⟨k', v⟩ := hd
      by_cases h : k' = k
      · simpa [eraseA, h] using ih
      · simpa [eraseA, lookupA, h] using ih

theorem not_mem_protectedKeys (key : String) (h : key ∉ protectedKeys) :
    key ≠ ext.SpanName ∧ key ≠ ext.SpanType ∧ key ≠ ext.ResourceName ∧
    key ≠ ext.ServiceName ∧ key ≠ ext.HTTPCode ∧ key ≠ ext.Environment ∧
    key ≠ keyMeasured ∧ key ≠ keyTopLevel ∧ key ≠ ext.AnalyticsEvent ∧
    key ≠ ext.EventSampleRate := by
  simp only [protectedKeys, List.mem_cons, List.not_mem_nil, or_false, not_or] at h
  exact h

theorem not_mem_samplingKeys (key : String) (h : key ∉ samplingKeys) :
    key ≠ ext.ManualKeep ∧ key ≠ ext.ManualDrop ∧ key ≠ ext.SamplingPriority ∧
    key ≠ keySamplingPriority := by
  simp only [samplingKeys, List.mem_cons, List.not_mem_nil, or_false, not_or] at h
  exact h

theorem not_mem_derivedTagKeys (key : String) (h : key ∉ derivedTagKeys) :
    key ≠ ext.SpanName ∧ key ≠ ext.ServiceName ∧ key ≠ ext.ResourceName ∧
    key ≠ ext.SpanType ∧ key ≠ ext.AnalyticsEvent ∧ key ≠ ext.ManualDrop ∧
    key ≠ ext.ManualKeep ∧ key ≠ ext.SamplingPriority ∧ key ≠ keySamplingPriority := by
  simp only [derivedTagKeys, List.mem_cons, List.not_mem_nil, or_false, not_or] at h
  exact h

/-- For a key outside `Tag`'s key switch, `Tag` is the Meta-then-Metrics
fallthrough of post_processor.go lines 55-61. -/
theorem Tag_default (s : readWriteSpan) (key : String) (h : key ∉ derivedTagKeys) :
    s.Tag key =
      match lookupA s.span.Meta key with
      | some val => TagValue.str val
      | none =>
        match lookupA s.span.Metrics key with
        | some val => TagValue.num val
        | none => TagValue.nil := by
  obtain ⟨h1, h2, h3, h4, h5, h6, h7, h8, h9⟩ := not_mem_derivedTagKeys key h
  unfold readWriteSpan.Tag
  rw [if_neg h1, if_neg h2, if_neg h3, if_neg h4, if_neg h5, if_neg h6,
    if_neg h7, if_neg h8, if_neg h9]

/-- A key outside both `SetTag` switch cases reaches the record's
tag-setting routine. -/
theorem SetTag_default (s : readWriteSpan) (key : String) (value : SetValue)
    (h1 : key ∉ protectedKeys) (h2 : key ∉ samplingKeys) :
    s.SetTag key value = ⟨s.span.setTagLocked key value⟩ := by
  unfold readWriteSpan.SetTag
  rw [if_neg h1, if_neg h2]

/-- A key outside both `SetTag` switch cases is outside `Tag`'s key
switch as well: every derived key is either protected or
sampling-priority-related. -/
theorem not_mem_derived_of_not_mem (key : String)
    (h1 : key ∉ protectedKeys) (h2 : key ∉ samplingKeys) :
    key ∉ derivedTagKeys := by
  obtain ⟨p1, p2, p3, p4, _, _, _, _, p9, _⟩ := not_mem_protectedKeys key h1
  obtain ⟨q1, q2, q3, q4⟩ := not_mem_samplingKeys key h2
  simp only [derivedTagKeys, List.mem_cons, List.not_mem_nil, or_false, not_or]
  exact ⟨p1, p4, p3, p2, p9, q2, q1, q3, q4⟩

/-! ### Concrete records used by the witnesses -/

/-- A sample finished span record with one entry in each metadata map. -/
def sampleSpan : Span :=
  { Name := "web.request", Service := "svc", Resource := "GET /",
    Typ := "web", Duration := 100, Error := 0,
    Meta := [("custom", "x")], Metrics := [("m", 1)], finished := true }

/-- A finished span record whose sampling priority is 2 (manual keep). -/
def keepSpan : Span :=
  { Name := "op", Service := "s", Resource := "r", Typ := "t",
    Duration := 1, Error := 0, Meta := [],
    Metrics := [(keySamplingPriority, 2)], finished := true }

/-- A finished span record with the same key bound in both metadata
maps. -/
def bothSpan : Span :=
  { Name := "op", Service := "s", Resource := "r", Typ := "t",
    Duration := 1, Error := 0, Meta := [("dual", "sv")],
    Metrics := [("dual", 7)], finished := true }

/-- A finished span record with empty metadata maps and a nonempty
operation name. -/
def bareSpan : Span :=
  { Name := "op", Service := "s", Resource := "r", Typ := "t",
    Duration := 1, Error := 0, Meta := [], Metrics := [], finished := true }

/-! ### Claim theorems -/

/-- C1: for every key P in the protected-field set and every candidate
value v, `SetTag P v` on a readWriteSpan leaves every field of the
underlying span record unchanged — the wrapped record is equal, every
accessor (`Tag`, `GetName`, `GetService`, `GetResource`, `GetType`,
`GetDuration`) returns its pre-call value, and the Meta/Metrics maps are
untouched; the call is total, so no error is returned to the caller. -/
theorem SetTag_protected_frame (P : String) (hP : P ∈ protectedKeys)
    (v : SetValue) (s : readWriteSpan) :
    s.SetTag P v = s ∧
    (∀ k, (s.SetTag P v).Tag k = s.Tag k) ∧
    (s.SetTag P v).GetName = s.GetName ∧
    (s.SetTag P v).GetService = s.GetService ∧
    (s.SetTag P v).GetResource = s.GetResource ∧
    (s.SetTag P v).GetType = s.GetType ∧
    (s.SetTag P v).GetDuration = s.GetDuration ∧
    (s.SetTag P v).span.Meta = s.span.Meta ∧
    (s.SetTag P v).span.Metrics = s.span.Metrics := by
  have h : s.SetTag P v = s := by
    unfold readWriteSpan.SetTag
    rw [if_pos hP]
  refine ⟨h, fun k => by rw [h], ?_, ?_, ?_, ?_, ?_, ?_, ?_⟩ <;> rw [h]

/-- Witness for C1 at the operation-name key on a concrete record. -/
theorem SetTag_protected_frame_witness :
    ext.SpanName ∈ protectedKeys ∧
    (readWriteSpan.mk sampleSpan).SetTag ext.SpanName (SetValue.str "evil") =
      readWriteSpan.mk sampleSpan :=
  ⟨by decide, (SetTag_protected_frame ext.SpanName (by decide)
      (SetValue.str "evil") (readWriteSpan.mk sampleSpan)).1⟩

/-- C5: for every sampling-priority-related key S and every value v,
`SetTag S v` on a readWriteSpan over a finalized record has no observable
effect — the value returned by `Tag S` is unchanged and the record is
untouched; the call returns normally. -/
theorem SetTag_sampling_noop (S : String) (hS : S ∈ samplingKeys)
    (v : SetValue) (s : readWriteSpan) (hf : s.span.finished = true) :
    (s.SetTag S v).Tag S = s.Tag S ∧ s.SetTag S v = s := by
  have hnp : S ∉ protectedKeys := by
    simp only [samplingKeys, List.mem_cons, List.not_mem_nil, or_false] at hS
    rcases hS with rfl | rfl | rfl | rfl <;> decide
  have h : s.SetTag S v = s := by
    unfold readWriteSpan.SetTag
    rw [if_neg hnp, if_pos hS]
  exact ⟨by rw [h], h⟩

/-- Witness for C5 at the manual-keep key on a concrete finished record. -/
theorem SetTag_sampling_noop_witness :
    ext.ManualKeep ∈ samplingKeys ∧ sampleSpan.finished = true ∧
    (readWriteSpan.mk sampleSpan).SetTag ext.ManualKeep (SetValue.num 2) =
      readWriteSpan.mk sampleSpan :=
  ⟨by decide, rfl,
    (SetTag_sampling_noop ext.ManualKeep (by decide) (SetValue.num 2)
      (readWriteSpan.mk sampleSpan) rfl).2⟩

/-- C9: `SetOperationName name` is defined as `SetTag` on the
operation-name key, and since that key is protected it is a no-op: the
record, and in particular `GetName`, is unchanged. -/
theorem SetOperationName_noop (s : readWriteSpan) (name : String) :
    s.SetOperationName name = s.SetTag ext.SpanName (SetValue.str name) ∧
    s.SetOperationName name = s ∧
    (s.SetOperationName name).GetName = s.GetName := by
  have h : s.SetOperationName name = s := by
    unfold readWriteSpan.SetOperationName readWriteSpan.SetTag
    rw [if_pos (by decide : ext.SpanName ∈ protectedKeys)]
  exact ⟨rfl, h, by rw [h]⟩

/-- C6: dispatching any batch (including the empty batch) with no
registered callback returns the keep decision `true` and the records
exactly as passed — no record is mutated. -/
theorem runProcessor_no_callback (tr : tracer)
    (h : tr.config.postProcessor = none) (spans : List Span) :
    tr.runProcessor spans = (true, spans) := by
  unfold tracer.runProcessor
  rw [h]

/-- Witness for C6 on a concrete two-span batch. -/
theorem runProcessor_no_callback_witness :
    (tracer.mk (config.mk none)).config.postProcessor = none ∧
    (tracer.mk (config.mk none)).runProcessor [sampleSpan, bareSpan] =
      (true, [sampleSpan, bareSpan]) :=
  ⟨rfl, runProcessor_no_callback (tracer.mk (config.mk none)) rfl
    [sampleSpan, bareSpan]⟩

/-- C2: dispatching a batch with a registered callback wraps every record
in a readWriteSpan view preserving batch order (same length, the view at
index i wraps the span at index i), and the keep decision is exactly the
callback's boolean result on that ordered view sequence — the dispatch is
a single application of the callback; in particular a `false` result
forces decision `false` and a `true` result forces decision `true`. -/
theorem runProcessor_callback (tr : tracer)
    (p : List readWriteSpan → Bool × List readWriteSpan)
    (hp : tr.config.postProcessor = some p) (spans : List Span) :
    (tr.runProcessor spans).1 = (p (newReadWriteSpanSlice spans)).1 ∧
    (newReadWriteSpanSlice spans).length = spans.length ∧
    (∀ i, (newReadWriteSpanSlice spans).get? i =
      (spans.get? i).map readWriteSpan.mk) ∧
    ((p (newReadWriteSpanSlice spans)).1 = false →
      (tr.runProcessor spans).1 = false) ∧
    ((p (newReadWriteSpanSlice spans)).1 = true →
      (tr.runProcessor spans).1 = true) := by
  have h : (tr.runProcessor spans).1 = (p (newReadWriteSpanSlice spans)).1 := by
    unfold tracer.runProcessor
    rw [hp]
  refine ⟨h, by simp [newReadWriteSpanSlice], fun i => ?_,
    fun hf => h.trans hf, fun ht => h.trans ht⟩
  simp [newReadWriteSpanSlice, List.get?_map]

/-- Witness for C2 with a concrete callback that votes to drop. -/
theorem runProcessor_callback_witness :
    (tracer.mk (config.mk (some fun views => (false, views)))).config.postProcessor =
      some (fun views => (false, views)) ∧
    ((tracer.mk (config.mk (some fun views => (false, views)))).runProcessor
        [sampleSpan]).1 =
      ((fun (views : List readWriteSpan) => (false, views))
        (newReadWriteSpanSlice [sampleSpan])).1 :=
  ⟨rfl, (runProcessor_callback (tracer.mk (config.mk
      (some fun views => (false, views)))) (fun views => (false, views))
      rfl [sampleSpan]).1⟩

/-- C3: for every key in neither `SetTag` switch case and every value v,
`SetTag key v` followed by `Tag key` returns v; the value lands in the
string metadata map when textual and in the numeric metadata map when
numeric. -/
theorem SetTag_roundTrip (s : readWriteSpan) (key : String) (v : SetValue)
    (h1 : key ∉ protectedKeys) (h2 : key ∉ samplingKeys) :
    (s.SetTag key v).Tag key = v.toTagValue ∧
    (∀ sv, v = SetValue.str sv →
      lookupA (s.SetTag key v).span.Meta key = some sv) ∧
    (∀ q, v = SetValue.num q →
      lookupA (s.SetTag key v).span.Metrics key = some q) := by
  have hd := not_mem_derived_of_not_mem key h1 h2
  have hset : s.SetTag key v = ⟨s.span.setTagLocked key v⟩ :=
    SetTag_default s key v h1 h2
  rw [hset, Tag_default _ key hd]
  cases v with
  | str sv =>
      simp [Span.setTagLocked, SetValue.toTagValue, lookupA_insertA_self]
  | num q =>
      simp [Span.setTagLocked, SetValue.toTagValue, lookupA_insertA_self,
        lookupA_eraseA_self]

/-- Witness for C3: an unprotected key round-trips on a concrete record. -/
theorem SetTag_roundTrip_witness :
    ("custom.flag" ∉ protectedKeys) ∧ ("custom.flag" ∉ samplingKeys) ∧
    ((readWriteSpan.mk sampleSpan).SetTag "custom.flag"
      (SetValue.str "x")).Tag "custom.flag" = TagValue.str "x" :=
  ⟨by decide, by decide,
    (SetTag_roundTrip (readWriteSpan.mk sampleSpan) "custom.flag"
      (SetValue.str "x") (by decide) (by decide)).1⟩

/-- C4: `Tag` on the manual-keep key is the boolean true exactly when the
internal sampling-priority entry of the Metrics map equals 2, and on the
manual-drop key exactly when it equals -1; any other stored value, and
the absent case, yield the boolean false for both. -/
theorem Tag_manual_keep_drop (s : readWriteSpan) :
    (s.Tag ext.ManualKeep = TagValue.boolean true ↔
      lookupA s.span.Metrics keySamplingPriority = some 2) ∧
    (s.Tag ext.ManualDrop = TagValue.boolean true ↔
      lookupA s.span.Metrics keySamplingPriority = some (-1)) ∧
    (∀ q : Rat, lookupA s.span.Metrics keySamplingPriority = some q →
      q ≠ 2 → s.Tag ext.ManualKeep = TagValue.boolean false) ∧
    (∀ q : Rat, lookupA s.span.Metrics keySamplingPriority = some q →
      q ≠ -1 → s.Tag ext.ManualDrop = TagValue.boolean false) ∧
    (lookupA s.span.Metrics keySamplingPriority = none →
      s.Tag ext.ManualKeep = TagValue.boolean false ∧
      s.Tag ext.ManualDrop = TagValue.boolean false) := by
  have hkeep : s.Tag ext.ManualKeep = TagValue.boolean
      (decide ((lookupA s.span.Metrics keySamplingPriority).getD 0 = 2)) := rfl
  have hdrop : s.Tag ext.ManualDrop = TagValue.boolean
      (decide ((lookupA s.span.Metrics keySamplingPriority).getD 0 = -1)) := rfl
  refine ⟨?_, ?_, ?_, ?_, ?_⟩
  · rw [hkeep]
    cases hl : lookupA s.span.Metrics keySamplingPriority with
    | none => decide
    | some q => simp
  · rw [hdrop]
    cases hl : lookupA s.span.Metrics keySamplingPriority with
    | none => decide
    | some q => simp
  · intro q hq hne
    rw [hkeep, hq]
    simp [hne]
  · intro q hq hne
    rw [hdrop, hq]
    simp [hne]
  · intro hl
    rw [hkeep, hdrop, hl]
    exact ⟨by decide, by decide⟩

/-- Witness for C4 on a record with sampling priority 2. -/
theorem Tag_manual_keep_drop_witness :
    (readWriteSpan.mk keepSpan).Tag ext.ManualKeep = TagValue.boolean true ∧
    (readWriteSpan.mk keepSpan).Tag ext.ManualDrop = TagValue.boolean false :=
  ⟨(Tag_manual_keep_drop (readWriteSpan.mk keepSpan)).1.mpr (by decide),
   (Tag_manual_keep_drop (readWriteSpan.mk keepSpan)).2.2.2.1 2 (by decide)
     (by decide)⟩

/-- C7 counterexample: on a record whose metadata maps are both empty,
the operation-name key is present in neither map, yet `Tag` returns the
stored operation name rather than the absent indicator; the manual-keep
key likewise returns the boolean false rather than nil. -/
theorem Tag_absent_counterexample :
    lookupA bareSpan.Meta ext.SpanName = none ∧
    lookupA bareSpan.Metrics ext.SpanName = none ∧
    (readWriteSpan.mk bareSpan).Tag ext.SpanName = TagValue.str "op" ∧
    (readWriteSpan.mk bareSpan).Tag ext.SpanName ≠ TagValue.nil ∧
    lookupA bareSpan.Meta ext.ManualKeep = none ∧
    lookupA bareSpan.Metrics ext.ManualKeep = none ∧
    (readWriteSpan.mk bareSpan).Tag ext.ManualKeep = TagValue.boolean false := by
  decide

/-- C7 amended: for every key outside the well-known derived-key set of
`Tag`'s key switch, if the key is present in neither metadata map then
`Tag` returns the absent indicator nil — never a default value — and the
call is total, so no error is raised for an unknown key. -/
theorem Tag_absent_nil (s : readWriteSpan) (key : String)
    (hk : key ∉ derivedTagKeys)
    (hm : lookupA s.span.Meta key = none)
    (hq : lookupA s.span.Metrics key = none) :
    s.Tag key = TagValue.nil := by
  rw [Tag_default s key hk, hm, hq]

/-- Witness for the amended C7 at a concrete unknown key. -/
theorem Tag_absent_nil_witness :
    ("nope" ∉ derivedTagKeys) ∧ lookupA sampleSpan.Meta "nope" = none ∧
    lookupA sampleSpan.Metrics "nope" = none ∧
    (readWriteSpan.mk sampleSpan).Tag "nope" = TagValue.nil :=
  ⟨by decide, by decide, by decide,
    Tag_absent_nil (readWriteSpan.mk sampleSpan) "nope" (by decide)
      (by decide) (by decide)⟩

/-- C8: for every key outside `Tag`'s derived-key switch, the string
metadata map is consulted first: a Meta hit is returned regardless of
Metrics (in particular when the key is in both maps, the Meta value
wins), and Metrics is consulted only when Meta misses. -/
theorem Tag_meta_before_metrics (s : readWriteSpan) (key : String)
    (hk : key ∉ derivedTagKeys) :
    (∀ v, lookupA s.span.Meta key = some v → s.Tag key = TagValue.str v) ∧
    (∀ v q, lookupA s.span.Meta key = some v →
      lookupA s.span.Metrics key = some q → s.Tag key = TagValue.str v) ∧
    (∀ q, lookupA s.span.Meta key = none →
      lookupA s.span.Metrics key = some q → s.Tag key = TagValue.num q) := by
  have h := Tag_default s key hk
  refine ⟨fun v hv => ?_, fun v q hv _ => ?_, fun q hm hq => ?_⟩
  · rw [h, hv]
  · rw [h, hv]
  · rw [h, hm, hq]

/-- Witness for C8 on a record holding the same key in both maps. -/
theorem Tag_meta_before_metrics_witness :
    ("dual" ∉ derivedTagKeys) ∧ lookupA bothSpan.Meta "dual" = some "sv" ∧
    lookupA bothSpan.Metrics "dual" = some 7 ∧
    (readWriteSpan.mk bothSpan).Tag "dual" = TagValue.str "sv" :=
  ⟨by decide, by decide, by decide,
    (Tag_meta_before_metrics (readWriteSpan.mk bothSpan) "dual"
      (by decide)).2.1 "sv" 7 (by decide) (by decide)⟩

/-- C10: reads of the public sampling-priority key and of the internal
sampling-priority key agree — both return the internal
sampling-priority entry of the Metrics map when present and nil when
absent. -/
theorem Tag_samplingPriority_alias (s : readWriteSpan) :
    s.Tag ext.SamplingPriority = s.Tag keySamplingPriority ∧
    (∀ q, lookupA s.span.Metrics keySamplingPriority = some q →
      s.Tag ext.SamplingPriority = TagValue.num q ∧
      s.Tag keySamplingPriority = TagValue.num q) ∧
    (lookupA s.span.Metrics keySamplingPriority = none →
      s.Tag ext.SamplingPriority = TagValue.nil ∧
      s.Tag keySamplingPriority = TagValue.nil) := by
  have h1 : s.Tag ext.SamplingPriority =
      match lookupA s.span.Metrics keySamplingPriority with
      | some val => TagValue.num val
      | none => TagValue.nil := rfl
  have h2 : s.Tag keySamplingPriority =
      match lookupA s.span.Metrics keySamplingPriority with
      | some val => TagValue.num val
      | none => TagValue.nil := rfl
  refine ⟨h1.trans h2.symm, fun q hq => ⟨?_, ?_⟩, fun hn => ⟨?_, ?_⟩⟩
  · rw [h1, hq]
  · rw [h2, hq]
  · rw [h1, hn]
  · rw [h2, hn]

/-- Witness for C10 on a record with a stored sampling priority. -/
theorem Tag_samplingPriority_alias_witness :
    lookupA keepSpan.Metrics keySamplingPriority = some 2 ∧
    (readWriteSpan.mk keepSpan).Tag ext.SamplingPriority = TagValue.num 2 :=
  ⟨by decide,
    ((Tag_samplingPriority_alias (readWriteSpan.mk keepSpan)).2.1 2
      (by decide)).1⟩
